import Mathlib

/-!
Verification of yabridgectl's plugin discovery, classification and
installation logic (`files.rs`, `actions.rs`, `vst3_moduleinfo.rs`,
`util.rs`) against its natural-language specification.

Paths are modelled as lists of components (`Path := List String`), the
filesystem visible to a scan as the list of paths that exist, and the
fallible filesystem operations as `Except`-valued functions.
-/

/-- A filesystem path, as its list of components.  The empty list stands for
the root (or empty) path, mirroring `std::path::Path`. -/
abbrev FsPath := List String

/-- `std::path::Path::parent`: `None` for the root/empty path, otherwise the
path with its last component removed. -/
def parent (p : FsPath) : Option FsPath :=
  match p with
  | [] => none
  | _ => some p.dropLast

/-- `std::path::Path::file_name`: the final component, if any. -/
def file_name (p : FsPath) : Option String :=
  p.getLast?

/-- Position of the last `.` in a file name that is not its first character;
`std::path::Path` treats only such a dot as starting an extension. -/
def lastDotPos (cs : List Char) : Option Nat :=
  ((List.range cs.length).filter fun i => decide (1 ≤ i ∧ cs.getD i 'x' = '.')).getLast?

/-- `std::path::Path::with_extension` applied to a bare file name: strip the
extension (the part after the last non-leading dot) and append `.ext`. -/
def with_extension (name ext : String) : String :=
  let cs := name.toList
  match lastDotPos cs with
  | some i => ((cs.take i) ++ ('.' :: ext.toList)).asString
  | none => (cs ++ ('.' :: ext.toList)).asString

/-- `std::path::Path::with_extension` on a full path: replace the extension of
the final component; a path without a file name is returned unchanged. -/
def path_with_extension (p : FsPath) (ext : String) : FsPath :=
  match p.getLast? with
  | none => p
  | some nm => p.dropLast ++ [with_extension nm ext]

/-- A 16-byte class identifier, the `[u8; 16]` of `vst3_moduleinfo.rs`.
Each field holds one byte (a value below 256). -/
structure UID where
  b0 : Nat
  b1 : Nat
  b2 : Nat
  b3 : Nat
  b4 : Nat
  b5 : Nat
  b6 : Nat
  b7 : Nat
  b8 : Nat
  b9 : Nat
  b10 : Nat
  b11 : Nat
  b12 : Nat
  b13 : Nat
  b14 : Nat
  b15 : Nat
deriving DecidableEq, Repr

/-- `rewrite_uid_byte_order` from `vst3_moduleinfo.rs`: copy the input, then
reverse bytes 0–3 and swap the pairs (4,5) and (6,7); bytes 8–15 are kept. -/
def rewrite_uid_byte_order (old_uid : UID) : UID :=
  { old_uid with
    b0 := old_uid.b3
    b1 := old_uid.b2
    b2 := old_uid.b1
    b3 := old_uid.b0
    b4 := old_uid.b5
    b5 := old_uid.b4
    b6 := old_uid.b7
    b7 := old_uid.b6 }

/-- One byte printed as `{:02X}`: two uppercase hexadecimal digits. -/
def byteToHex (b : Nat) : String :=
  let digits := "0123456789ABCDEF".toList
  ⟨[digits.getD (b / 16 % 16) '0', digits.getD (b % 16) '0']⟩

/-- `encode_hex_uid` from `vst3_moduleinfo.rs`: the 32-character uppercase
hexadecimal rendering of a UID. -/
def encode_hex_uid (uid : UID) : String :=
  String.join ([uid.b0, uid.b1, uid.b2, uid.b3, uid.b4, uid.b5, uid.b6, uid.b7,
    uid.b8, uid.b9, uid.b10, uid.b11, uid.b12, uid.b13, uid.b14, uid.b15].map byteToHex)

/-- `InstallationMethod` from `actions.rs`: install by copying or by
symlinking. -/
inductive InstallationMethod
  | Copy
  | Symlink
deriving DecidableEq, Repr

/-- What `fs::symlink_metadata` can observe at an install target: a regular
file (with the content hash `util::hash_file` would compute for it), a
symlink (with its link value), or a directory. -/
inductive TargetFile
  | regular (content_hash : Int)
  | symlink (link : FsPath)
  | directory
deriving DecidableEq, Repr

/-- `util::remove_file` (`util.rs`), a wrapper over `fs::remove_file`: it
unlinks regular files and symlinks but fails on a directory. -/
def remove_file : TargetFile → Except Unit Unit
  | TargetFile.directory => Except.error ()
  | _ => Except.ok ()

/-- `install_file` from `actions.rs`.  The state found at `to` is passed in as
`Option TargetFile` in `to_file` (`none` when `fs::symlink_metadata` reports that nothing
exists there), and `from_content_hash` is the hash a copy of `from_path`
would leave at the target.  The result carries the returned `bool` together
with the state of the target afterwards. -/
def install_file (force : Bool) (method : InstallationMethod) (from_path : FsPath)
    (from_hash : Option Int) (to_file : Option TargetFile) (from_content_hash : Int) :
    Except Unit (Bool × TargetFile) :=
  let proceed : Except Unit (Bool × TargetFile) :=
    match method with
    | InstallationMethod.Copy => Except.ok (true, TargetFile.regular from_content_hash)
    | InstallationMethod.Symlink => Except.ok (true, TargetFile.symlink from_path)
  match to_file with
  | none => proceed
  | some metadata =>
    let skip : Bool :=
      match force, method with
      | false, InstallationMethod.Copy =>
        -- only a real file whose hash equals `from_hash` is skipped
        match from_hash, metadata with
        | some hash, TargetFile.regular to_hash => decide (to_hash = hash)
        | _, _ => false
      | false, InstallationMethod.Symlink =>
        -- only an existing symlink already pointing at `from_path` is skipped
        match metadata with
        | TargetFile.symlink link => decide (link = from_path)
        | _ => false
      | true, _ => false
    if skip then Except.ok (false, metadata)
    else
      match remove_file metadata with
      | Except.ok _ => proceed
      | Except.error e => Except.error e

/-- `LibArchitecture` from `files.rs`: bit-width of a library file. -/
inductive LibArchitecture
  | Lib32
  | Lib64
deriving DecidableEq, Repr

/-- `LibArchitecture::vst_arch` from `files.rs`: the Windows VST3
architecture directory name. -/
def vst_arch : LibArchitecture → String
  | LibArchitecture.Lib32 => "x86-win"
  | LibArchitecture.Lib64 => "x86_64-win"

/-- `YabridgeFiles` from `config.rs`: resolved paths (and architectures) of
the native chainloader libraries and host binaries. -/
structure YabridgeFiles where
  vst2_chainloader : FsPath
  vst2_chainloader_arch : LibArchitecture
  vst3_chainloader : Option (FsPath × LibArchitecture)
  clap_chainloader : Option (FsPath × LibArchitecture)
  yabridge_host_exe : Option FsPath
  yabridge_host_exe_so : Option FsPath
  yabridge_host_32_exe : Option FsPath
  yabridge_host_32_exe_so : Option FsPath
deriving DecidableEq, Repr

/-- `Vst3ModuleType` from `files.rs`: a legacy standalone `.vst3` module or a
VST 3.6.10 style bundle (holding the bundle root). -/
inductive Vst3ModuleType
  | Legacy (p : FsPath)
  | Bundle (p : FsPath)
deriving DecidableEq, Repr

/-- `Vst3Module` from `files.rs`. -/
structure Vst3Module where
  module : Vst3ModuleType
  architecture : LibArchitecture
  subdirectory : Option FsPath
deriving DecidableEq, Repr

/-- `config::yabridge_vst3_home`: `$HOME/.vst3/yabridge`. -/
def yabridge_vst3_home (home : FsPath) : FsPath :=
  home ++ [".vst3", "yabridge"]

/-- `config::yabridge_clap_home`: `$HOME/.clap/yabridge`. -/
def yabridge_clap_home (home : FsPath) : FsPath :=
  home ++ [".clap", "yabridge"]

/-- `Vst3Module::original_path`: the path held by either module variant. -/
def original_path (m : Vst3Module) : FsPath :=
  match m.module with
  | Vst3ModuleType.Legacy p => p
  | Vst3ModuleType.Bundle p => p

/-- `Vst3Module::original_module_name`: the file name of the module path
(`None` models the panic on a nameless path). -/
def original_module_name (m : Vst3Module) : Option String :=
  file_name (original_path m)

/-- `Vst3Module::target_bundle_home`: the bridged bundle root under
`~/.vst3/yabridge`, grouped by the recorded subdirectory. -/
def target_bundle_home (home : FsPath) (m : Vst3Module) : Option FsPath :=
  (original_module_name m).map fun name =>
    match m.subdirectory with
    | some directory => yabridge_vst3_home home ++ directory ++ [name]
    | none => yabridge_vst3_home home ++ [name]

/-- `Vst3Module::target_native_module_path`: the renamed `.so` chainloader
copy inside the merged bundle.  The Linux architecture directory is chosen
from the chainloader's own architecture, defaulting to 64-bit when no
chainloader is configured. -/
def target_native_module_path (home : FsPath) (files : Option YabridgeFiles)
    (m : Vst3Module) : Option FsPath :=
  match file_name (path_with_extension (original_path m) "so"),
      target_bundle_home home m with
  | some native_module_name, some bundle_home =>
    some (bundle_home ++ ["Contents",
      (match files.bind YabridgeFiles.vst3_chainloader with
       | some (_, LibArchitecture.Lib32) => "i386-linux"
       | _ => "x86_64-linux"),
      native_module_name])
  | _, _ => none

/-- `Vst3Module::target_windows_module_path`: where the original Windows
module is symlinked inside the merged bundle, under the plugin's own
Windows architecture directory. -/
def target_windows_module_path (home : FsPath) (m : Vst3Module) : Option FsPath :=
  match original_module_name m, target_bundle_home home m with
  | some name, some bundle_home =>
    some (bundle_home ++ ["Contents", vst_arch m.architecture, name])
  | _, _ => none

/-- `ClapPlugin` from `files.rs`. -/
structure ClapPlugin where
  path : FsPath
  architecture : LibArchitecture
  subdirectory : Option FsPath
deriving DecidableEq, Repr

/-- `ClapPlugin::windows_target`: where the Windows `.clap` plugin is
symlinked under `~/.clap/yabridge`, with a `clap-win` extension. -/
def windows_target (home : FsPath) (cp : ClapPlugin) : Option FsPath :=
  (file_name cp.path).map fun nm =>
    let fname := with_extension nm "clap-win"
    match cp.subdirectory with
    | some directory => yabridge_clap_home home ++ directory ++ [fname]
    | none => yabridge_clap_home home ++ [fname]

/-- `Pe32Info` from `symbols.rs`: exported symbol names and bit-width of a
parsed binary. -/
structure Pe32Info where
  exports : List String
  is_64_bit : Bool
deriving DecidableEq, Repr

/-- `VST2_ENTRY_POINTS` from `SearchIndex::search`. -/
def VST2_ENTRY_POINTS : List String := ["VSTPluginMain", "main"]

/-- `VST3_ENTRY_POINTS` from `SearchIndex::search`. -/
def VST3_ENTRY_POINTS : List String := ["GetPluginFactory"]

/-- `CLAP_ENTRY_POINTS` from `SearchIndex::search`. -/
def CLAP_ENTRY_POINTS : List String := ["clap_entry"]

/-- `Vst2Plugin` from `files.rs`. -/
structure Vst2Plugin where
  path : FsPath
  architecture : LibArchitecture
  subdirectory : Option FsPath
deriving DecidableEq, Repr

/-- `Plugin` from `files.rs`. -/
inductive Plugin
  | Vst2 (p : Vst2Plugin)
  | Vst3 (m : Vst3Module)
  | Clap (c : ClapPlugin)
deriving DecidableEq, Repr

/-- `NativeFile` from `files.rs`. -/
inductive NativeFile
  | Symlink (p : FsPath)
  | Regular (p : FsPath)
  | Directory (p : FsPath)
deriving DecidableEq, Repr

/-- `SearchIndex` from `files.rs`: candidate files bucketed by extension,
each with its directory-relative subdirectory. -/
structure SearchIndex where
  dll_files : List (FsPath × Option FsPath)
  vst3_files : List (FsPath × Option FsPath)
  clap_files : List (FsPath × Option FsPath)
  so_files : List NativeFile
deriving DecidableEq, Repr

/-- `SearchResults` from `files.rs`. -/
structure SearchResults where
  plugins : List Plugin
  skipped_files : List FsPath
  so_files : List NativeFile
deriving DecidableEq, Repr

/-- The bundle-vs-legacy decision inside `SearchIndex::search` for one
`.vst3` file that exports `GetPluginFactory`: walk three parents up, rebuild
`<root parent>/<name>/Contents/<arch-win>/<name>` and test whether that path
exists in `fs`; on success the subdirectory is corrected three levels up as
well.  Returns the module type together with the corrected subdirectory. -/
def classify_vst3_module (fs : List FsPath) (module_path : FsPath)
    (architecture : LibArchitecture) (subdirectory : Option FsPath) :
    Vst3ModuleType × Option FsPath :=
  match ((parent module_path).bind parent).bind parent with
  | some bundle_root =>
    let module_is_in_bundle : Bool :=
      match parent bundle_root, file_name module_path with
      | some path, some module_name =>
        decide ((path ++ [module_name, "Contents", vst_arch architecture, module_name]) ∈ fs)
      | _, _ => false
    if module_is_in_bundle then
      (Vst3ModuleType.Bundle bundle_root,
        subdirectory.bind fun sd => ((parent sd).bind parent).bind parent)
    else
      (Vst3ModuleType.Legacy module_path, subdirectory)
  | none => (Vst3ModuleType.Legacy module_path, subdirectory)

/-- The per-candidate `.dll` closure of `SearchIndex::search`: `none` models
a parse failure (warned and dropped), `Sum.inl` a recognized VST2 plugin and
`Sum.inr` a skipped file. -/
def process_dll (parse : FsPath → Option Pe32Info) (cand : FsPath × Option FsPath) :
    Option (Vst2Plugin ⊕ FsPath) :=
  match parse cand.1 with
  | none => none
  | some info =>
    let architecture := if info.is_64_bit then LibArchitecture.Lib64 else LibArchitecture.Lib32
    if info.exports.any (fun symbol => VST2_ENTRY_POINTS.contains symbol) then
      some (Sum.inl ⟨cand.1, architecture, cand.2⟩)
    else
      some (Sum.inr cand.1)

/-- The per-candidate `.vst3` closure of `SearchIndex::search`. -/
def process_vst3 (fs : List FsPath) (parse : FsPath → Option Pe32Info)
    (cand : FsPath × Option FsPath) : Option (Vst3Module ⊕ FsPath) :=
  match parse cand.1 with
  | none => none
  | some info =>
    let architecture := if info.is_64_bit then LibArchitecture.Lib64 else LibArchitecture.Lib32
    if info.exports.any (fun symbol => VST3_ENTRY_POINTS.contains symbol) then
      let classified := classify_vst3_module fs cand.1 architecture cand.2
      some (Sum.inl ⟨classified.1, architecture, classified.2⟩)
    else
      some (Sum.inr cand.1)

/-- The per-candidate `.clap` closure of `SearchIndex::search`. -/
def process_clap (parse : FsPath → Option Pe32Info) (cand : FsPath × Option FsPath) :
    Option (ClapPlugin ⊕ FsPath) :=
  match parse cand.1 with
  | none => none
  | some info =>
    let architecture := if info.is_64_bit then LibArchitecture.Lib64 else LibArchitecture.Lib32
    if info.exports.any (fun symbol => CLAP_ENTRY_POINTS.contains symbol) then
      some (Sum.inl ⟨cand.1, architecture, cand.2⟩)
    else
      some (Sum.inr cand.1)

/-- `SearchIndex::search` from `files.rs`: classify every candidate, collect
recognized plugins (VST2, then VST3, then CLAP) and the successfully parsed
non-plugin files into `skipped_files`.  `fs` is the set of existing paths
consulted by the bundle reconstruction check. -/
def search (fs : List FsPath) (parse : FsPath → Option Pe32Info)
    (idx : SearchIndex) : SearchResults :=
  let is_vst2_plugin := idx.dll_files.filterMap (process_dll parse)
  let is_vst3_module := idx.vst3_files.filterMap (process_vst3 fs parse)
  let is_clap_plugin := idx.clap_files.filterMap (process_clap parse)
  { plugins :=
      is_vst2_plugin.filterMap (fun r => match r with
        | Sum.inl v => some (Plugin.Vst2 v)
        | Sum.inr _ => none)
      ++ is_vst3_module.filterMap (fun r => match r with
        | Sum.inl m => some (Plugin.Vst3 m)
        | Sum.inr _ => none)
      ++ is_clap_plugin.filterMap (fun r => match r with
        | Sum.inl c => some (Plugin.Clap c)
        | Sum.inr _ => none),
    skipped_files :=
      is_vst2_plugin.filterMap (fun r => match r with
        | Sum.inl _ => none
        | Sum.inr p => some p)
      ++ is_vst3_module.filterMap (fun r => match r with
        | Sum.inl _ => none
        | Sum.inr p => some p)
      ++ is_clap_plugin.filterMap (fun r => match r with
        | Sum.inl _ => none
        | Sum.inr p => some p),
    so_files := idx.so_files }

/-- The candidates `SearchIndex::search` prints a skip warning for: those
whose binary parsing (both strategies) failed. -/
def search_warned (parse : FsPath → Option Pe32Info) (idx : SearchIndex) :
    List FsPath :=
  (idx.dll_files.filterMap fun cand =>
    match parse cand.1 with
    | none => some cand.1
    | some _ => none)
  ++ (idx.vst3_files.filterMap fun cand =>
    match parse cand.1 with
    | none => some cand.1
    | some _ => none)
  ++ (idx.clap_files.filterMap fun cand =>
    match parse cand.1 with
    | none => some cand.1
    | some _ => none)

/-- Claim C6: applying the UID byte-order rewrite twice returns any 16-byte
value unchanged; every touched position is part of a transposition. -/
theorem rewrite_uid_involutive (b : UID) :
    rewrite_uid_byte_order (rewrite_uid_byte_order b) = b := by
  cases b
  rfl

/-- Claim C2 (counterexample): on the 16 bytes with hex encoding
`0011223344556677FF00112233445566` the rewrite does not produce
`3322110067452301FF00112233445566`; bytes 4–7 come out as `55447766`,
not `67452301`. -/
theorem rewrite_uid_example_counterexample :
    encode_hex_uid
        (UID.mk 0x00 0x11 0x22 0x33 0x44 0x55 0x66 0x77
          0xFF 0x00 0x11 0x22 0x33 0x44 0x55 0x66) =
      "0011223344556677FF00112233445566"
    ∧ encode_hex_uid
        (rewrite_uid_byte_order
          (UID.mk 0x00 0x11 0x22 0x33 0x44 0x55 0x66 0x77
            0xFF 0x00 0x11 0x22 0x33 0x44 0x55 0x66)) ≠
      "3322110067452301FF00112233445566" := by
  decide

/-- Claim C2 (amended): for the literal 16-byte input with hex encoding
`0011223344556677FF00112233445566` the UID byte-order rewrite yields the
bytes with hex encoding `3322110055447766FF00112233445566` (bytes 0–3
reversed, bytes 4–7 pair-swapped, bytes 8–15 unchanged). -/
theorem rewrite_uid_example_value :
    encode_hex_uid
        (UID.mk 0x00 0x11 0x22 0x33 0x44 0x55 0x66 0x77
          0xFF 0x00 0x11 0x22 0x33 0x44 0x55 0x66) =
      "0011223344556677FF00112233445566"
    ∧ encode_hex_uid
        (rewrite_uid_byte_order
          (UID.mk 0x00 0x11 0x22 0x33 0x44 0x55 0x66 0x77
            0xFF 0x00 0x11 0x22 0x33 0x44 0x55 0x66)) =
      "3322110055447766FF00112233445566" := by
  decide

/-- Claim C1: with `force = false`, `install_file` returns `false` and leaves
the target untouched when copying onto a regular file whose content hash
already equals the provided source hash, and when symlinking onto a symlink
whose link value already equals the source path. -/
theorem install_file_skip_unchanged (src : FsPath) (h : Int) (fh : Option Int) (sh : Int) :
    install_file false InstallationMethod.Copy src (some h)
        (some (TargetFile.regular h)) sh
      = Except.ok (false, TargetFile.regular h)
    ∧ install_file false InstallationMethod.Symlink src fh
        (some (TargetFile.symlink src)) sh
      = Except.ok (false, TargetFile.symlink src) := by
  constructor <;> (unfold install_file; simp)

/-- Claim C5 (counterexample): when the existing target is a directory,
`install_file` does not remove and recreate it — `util::remove_file` wraps
`fs::remove_file`, which cannot remove directories, so the call fails
instead of returning `true`. -/
theorem install_file_directory_counterexample :
    install_file true InstallationMethod.Copy ["libyabridge-chainloader-vst3.so"]
        none (some TargetFile.directory) 0
      = Except.error () := by
  rfl

/-- Claim C5 (amended): when the target exists as a regular file or a symlink
and the skip conditions do not apply (or `force` is set), the target is
removed and recreated by copy or symlink according to the method and the
call returns `true`; a directory target instead makes the call fail, because
`util::remove_file` cannot remove directories. -/
theorem install_file_replaces_target (src lnk : FsPath) (th h sh : Int)
    (fh : Option Int) (f : Bool) (m : InstallationMethod)
    (hne : th ≠ h) (lne : lnk ≠ src) :
    install_file true InstallationMethod.Copy src fh
        (some (TargetFile.regular th)) sh
      = Except.ok (true, TargetFile.regular sh)
    ∧ install_file true InstallationMethod.Symlink src fh
        (some (TargetFile.regular th)) sh
      = Except.ok (true, TargetFile.symlink src)
    ∧ install_file true InstallationMethod.Copy src fh
        (some (TargetFile.symlink lnk)) sh
      = Except.ok (true, TargetFile.regular sh)
    ∧ install_file true InstallationMethod.Symlink src fh
        (some (TargetFile.symlink lnk)) sh
      = Except.ok (true, TargetFile.symlink src)
    ∧ install_file false InstallationMethod.Copy src (some h)
        (some (TargetFile.regular th)) sh
      = Except.ok (true, TargetFile.regular sh)
    ∧ install_file false InstallationMethod.Copy src none
        (some (TargetFile.regular th)) sh
      = Except.ok (true, TargetFile.regular sh)
    ∧ install_file false InstallationMethod.Symlink src fh
        (some (TargetFile.symlink lnk)) sh
      = Except.ok (true, TargetFile.symlink src)
    ∧ install_file false InstallationMethod.Copy src fh
        (some (TargetFile.symlink lnk)) sh
      = Except.ok (true, TargetFile.regular sh)
    ∧ install_file false InstallationMethod.Symlink src fh
        (some (TargetFile.regular th)) sh
      = Except.ok (true, TargetFile.symlink src)
    ∧ install_file f m src fh (some TargetFile.directory) sh
      = Except.error () := by
  refine ⟨?_, ?_, ?_, ?_, ?_, ?_, ?_, ?_, ?_, ?_⟩
  · unfold install_file; simp [remove_file]
  · unfold install_file; simp [remove_file]
  · unfold install_file; simp [remove_file]
  · unfold install_file; simp [remove_file]
  · unfold install_file; simp [remove_file, hne]
  · unfold install_file; simp [remove_file]
  · unfold install_file; simp [remove_file, lne]
  · cases fh <;> (unfold install_file; simp [remove_file])
  · unfold install_file; simp [remove_file]
  · cases f <;> cases m <;> cases fh <;> (unfold install_file; simp [remove_file])

/-- Closed instance of `install_file_replaces_target` at concrete inputs. -/
theorem install_file_replaces_target_witness :
    install_file true InstallationMethod.Copy ["chainloader.so"] none
        (some (TargetFile.regular 7)) 9
      = Except.ok (true, TargetFile.regular 9)
    ∧ install_file true InstallationMethod.Symlink ["chainloader.so"] none
        (some (TargetFile.regular 7)) 9
      = Except.ok (true, TargetFile.symlink ["chainloader.so"])
    ∧ install_file true InstallationMethod.Copy ["chainloader.so"] none
        (some (TargetFile.symlink ["stale.so"])) 9
      = Except.ok (true, TargetFile.regular 9)
    ∧ install_file true InstallationMethod.Symlink ["chainloader.so"] none
        (some (TargetFile.symlink ["stale.so"])) 9
      = Except.ok (true, TargetFile.symlink ["chainloader.so"])
    ∧ install_file false InstallationMethod.Copy ["chainloader.so"] (some 8)
        (some (TargetFile.regular 7)) 9
      = Except.ok (true, TargetFile.regular 9)
    ∧ install_file false InstallationMethod.Copy ["chainloader.so"] none
        (some (TargetFile.regular 7)) 9
      = Except.ok (true, TargetFile.regular 9)
    ∧ install_file false InstallationMethod.Symlink ["chainloader.so"] none
        (some (TargetFile.symlink ["stale.so"])) 9
      = Except.ok (true, TargetFile.symlink ["chainloader.so"])
    ∧ install_file false InstallationMethod.Copy ["chainloader.so"] none
        (some (TargetFile.symlink ["stale.so"])) 9
      = Except.ok (true, TargetFile.regular 9)
    ∧ install_file false InstallationMethod.Symlink ["chainloader.so"] none
        (some (TargetFile.regular 7)) 9
      = Except.ok (true, TargetFile.symlink ["chainloader.so"])
    ∧ install_file true InstallationMethod.Copy ["chainloader.so"] none
        (some TargetFile.directory) 9
      = Except.error () :=
  install_file_replaces_target ["chainloader.so"] ["stale.so"] 7 8 9 none true
    InstallationMethod.Copy (by decide) (by decide)

/-- The second-to-last element of a list that ends in three given elements. -/
theorem dropLast_append3_getLast (l : List String) (a b c : String) :
    (l ++ [a, b, c]).dropLast.getLast? = some b := by
  have h1 : l ++ [a, b, c] = (l ++ [a, b]) ++ [c] := by simp
  have h2 : l ++ [a, b] = (l ++ [a]) ++ [b] := by simp
  rw [h1, List.dropLast_concat, h2, List.getLast?_concat]

/-- Claim C7: in a merged VST3 bundle the Linux architecture directory is
exactly `i386-linux` for a 32-bit chainloader and `x86_64-linux` otherwise
(selected by the chainloader's bit-width), while the Windows architecture
directory is exactly `x86-win` for a 32-bit plugin and `x86_64-win` for a
64-bit plugin (selected by the plugin's architecture). -/
theorem vst3_arch_directory_names (home : FsPath) (m : Vst3Module)
    (files : Option YabridgeFiles) (pn pw : FsPath)
    (hn : target_native_module_path home files m = some pn)
    (hw : target_windows_module_path home m = some pw) :
    pn.dropLast.getLast? =
      some (match files.bind YabridgeFiles.vst3_chainloader with
        | some (_, LibArchitecture.Lib32) => "i386-linux"
        | _ => "x86_64-linux")
    ∧ pw.dropLast.getLast? =
      some (match m.architecture with
        | LibArchitecture.Lib32 => "x86-win"
        | LibArchitecture.Lib64 => "x86_64-win") := by
  constructor
  · simp only [target_native_module_path] at hn
    split at hn
    · rw [Option.some.injEq] at hn
      subst hn
      exact dropLast_append3_getLast _ _ _ _
    · cases hn
  · have harch :
        (match m.architecture with
          | LibArchitecture.Lib32 => "x86-win"
          | LibArchitecture.Lib64 => "x86_64-win") = vst_arch m.architecture := by
      cases m.architecture <;> rfl
    rw [harch]
    simp only [target_windows_module_path] at hw
    split at hw
    · rw [Option.some.injEq] at hw
      subst hw
      exact dropLast_append3_getLast _ _ _ _
    · cases hw

/-- Closed instance of `vst3_arch_directory_names` for a 64-bit legacy module
with no chainloader configured. -/
theorem vst3_arch_directory_names_witness :
    (["home", ".vst3", "yabridge", "Plugin.vst3", "Contents", "x86_64-linux",
        "Plugin.so"] : FsPath).dropLast.getLast? = some "x86_64-linux"
    ∧ (["home", ".vst3", "yabridge", "Plugin.vst3", "Contents", "x86_64-win",
        "Plugin.vst3"] : FsPath).dropLast.getLast? = some "x86_64-win" := by
  have h := vst3_arch_directory_names ["home"]
    ⟨Vst3ModuleType.Legacy ["Plugin.vst3"], LibArchitecture.Lib64, none⟩ none
    ["home", ".vst3", "yabridge", "Plugin.vst3", "Contents", "x86_64-linux", "Plugin.so"]
    ["home", ".vst3", "yabridge", "Plugin.vst3", "Contents", "x86_64-win", "Plugin.vst3"]
    (by decide) (by decide)
  exact ⟨h.1.trans (by rfl), h.2.trans (by rfl)⟩

/-- Claim C10: with no configuration (or no VST3 chainloader entry) the
native module path falls back to the same layout as the no-config case and
places the chainloader copy under the `x86_64-linux` directory. -/
theorem vst3_native_default_64bit (home : FsPath) (m : Vst3Module)
    (files : Option YabridgeFiles) (pn : FsPath)
    (hnone : files.bind YabridgeFiles.vst3_chainloader = none)
    (hn : target_native_module_path home files m = some pn) :
    target_native_module_path home files m = target_native_module_path home none m
    ∧ pn.dropLast.getLast? = some "x86_64-linux" := by
  constructor
  · unfold target_native_module_path
    rw [hnone]
    rfl
  · simp only [target_native_module_path] at hn
    rw [hnone] at hn
    split at hn
    · rw [Option.some.injEq] at hn
      subst hn
      exact dropLast_append3_getLast _ _ _ _
    · cases hn

/-- Closed instance of `vst3_native_default_64bit` at a concrete module. -/
theorem vst3_native_default_64bit_witness :
    target_native_module_path ["home"] none
        ⟨Vst3ModuleType.Legacy ["Plugin.vst3"], LibArchitecture.Lib64, none⟩
      = target_native_module_path ["home"] none
        ⟨Vst3ModuleType.Legacy ["Plugin.vst3"], LibArchitecture.Lib64, none⟩
    ∧ (["home", ".vst3", "yabridge", "Plugin.vst3", "Contents", "x86_64-linux",
        "Plugin.so"] : FsPath).dropLast.getLast? = some "x86_64-linux" :=
  vst3_native_default_64bit ["home"]
    ⟨Vst3ModuleType.Legacy ["Plugin.vst3"], LibArchitecture.Lib64, none⟩ none
    ["home", ".vst3", "yabridge", "Plugin.vst3", "Contents", "x86_64-linux", "Plugin.so"]
    (by rfl) (by decide)

/-- Claim C9: the symlink target for a discovered CLAP plugin's Windows
binary lives in the CLAP home directory under the plugin's subdirectory and
carries the plugin's file name with its extension replaced by the literal
`clap-win`. -/
theorem clap_windows_target_clap_win (home : FsPath) (cp : ClapPlugin) (nm : String)
    (h : file_name cp.path = some nm) :
    windows_target home cp
      = some (yabridge_clap_home home ++ cp.subdirectory.getD []
          ++ [with_extension nm "clap-win"]) := by
  unfold windows_target
  rw [h]
  cases hs : cp.subdirectory <;> simp [hs]

/-- Closed instance of `clap_windows_target_clap_win`: `Plugin.clap` maps to
`~/.clap/yabridge/Plugin.clap-win`. -/
theorem clap_windows_target_clap_win_witness :
    windows_target ["home"] ⟨["Plugin.clap"], LibArchitecture.Lib64, none⟩
      = some ["home", ".clap", "yabridge", "Plugin.clap-win"] :=
  (clap_windows_target_clap_win ["home"]
    ⟨["Plugin.clap"], LibArchitecture.Lib64, none⟩ "Plugin.clap" rfl).trans (by decide)

/-- Claim C3 (counterexample): the code classifies by testing whether the
reconstructed bundle path exists, not whether it equals the file's own path.
For a file at `a/b/c/Foo.vst3` whose reconstruction `Foo.vst3/Contents/
x86_64-win/Foo.vst3` happens to exist elsewhere, the module is classified
`Bundle(a)` even though its own path differs from the reconstruction. -/
theorem vst3_bundle_equality_counterexample :
    (classify_vst3_module [["Foo.vst3", "Contents", "x86_64-win", "Foo.vst3"]]
        ["a", "b", "c", "Foo.vst3"] LibArchitecture.Lib64 none).1
      = Vst3ModuleType.Bundle ["a"]
    ∧ (["a", "b", "c", "Foo.vst3"] : FsPath)
        ≠ ["Foo.vst3", "Contents", "x86_64-win", "Foo.vst3"] := by
  decide

/-- Claim C3 (amended): a matched `.vst3` file exporting `GetPluginFactory`
is classified `Bundle(bundle_root)` iff walking three parent levels up
yields `bundle_root`, `bundle_root` itself has a parent, and the
reconstructed path `bundle_root.parent/<name>/Contents/<arch-win>/<name>`
exists on the filesystem; otherwise it is classified `Legacy` of its
original path. -/
theorem vst3_bundle_iff_reconstruction (fs : List FsPath) (module_path : FsPath)
    (arch : LibArchitecture) (sub : Option FsPath) (broot : FsPath) :
    ((classify_vst3_module fs module_path arch sub).1 = Vst3ModuleType.Bundle broot
      ↔ ((parent module_path).bind parent).bind parent = some broot
        ∧ ∃ pp mn, parent broot = some pp ∧ file_name module_path = some mn
            ∧ (pp ++ [mn, "Contents", vst_arch arch, mn]) ∈ fs)
    ∧ ((∃ b, (classify_vst3_module fs module_path arch sub).1 = Vst3ModuleType.Bundle b)
        ∨ (classify_vst3_module fs module_path arch sub).1
            = Vst3ModuleType.Legacy module_path) := by
  unfold classify_vst3_module
  cases h3 : ((parent module_path).bind parent).bind parent with
  | none => simp
  | some br =>
    cases hp : parent br with
    | none =>
      simp only [hp]
      constructor
      · constructor
        · intro hb
          simp at hb
        · rintro ⟨hb, pp, mn, hpp, hmn, hmem⟩
          rw [Option.some.injEq] at hb
          subst hb
          rw [hp] at hpp
          cases hpp
      · right
        rfl
    | some pp =>
      cases hf : file_name module_path with
      | none =>
        simp only [hp, hf]
        constructor
        · constructor
          · intro hb
            simp at hb
          · rintro ⟨hb, pp', mn, hpp, hmn, hmem⟩
            cases hmn
        · right
          rfl
      | some mn =>
        by_cases hmem : (pp ++ [mn, "Contents", vst_arch arch, mn]) ∈ fs
        · simp only [hp, hf, hmem, decide_True, if_true]
          constructor
          · constructor
            · intro hb
              simp at hb
              subst hb
              exact ⟨rfl, pp, mn, hp, rfl, hmem⟩
            · rintro ⟨hb, _⟩
              rw [Option.some.injEq] at hb
              subst hb
              rfl
          · left
            exact ⟨br, rfl⟩
        · simp only [hp, hf, hmem, decide_False, if_false]
          constructor
          · constructor
            · intro hb
              simp at hb
            · rintro ⟨hb, pp', mn', hpp, hmn, hmem'⟩
              rw [Option.some.injEq] at hb
              subst hb
              rw [hp, Option.some.injEq] at hpp
              subst hpp
              rw [Option.some.injEq] at hmn
              subst hmn
              exact absurd hmem' hmem
          · right
            rfl

/-- Claim C4 (counterexample): classification is per extension bucket.  A
`.dll` candidate whose parsed exports contain `GetPluginFactory` (but no
VST2 entry point) is not classified as a VST3 module — it lands in
`skipped_files` with no plugin recorded. -/
theorem format_classification_counterexample :
    (search [] (fun _ => some ⟨["GetPluginFactory"], true⟩)
        ⟨[(["Plugin.dll"], none)], [], [], []⟩).plugins = []
    ∧ (search [] (fun _ => some ⟨["GetPluginFactory"], true⟩)
        ⟨[(["Plugin.dll"], none)], [], [], []⟩).skipped_files = [["Plugin.dll"]] := by
  constructor <;> rfl

/-- Claim C4 (amended): for a successfully parsed candidate, classification
is per extension bucket: a `.dll` candidate becomes a VST2 plugin iff its
export set intersects `{VSTPluginMain, main}`, a `.vst3` candidate becomes a
VST3 module iff its exports contain `GetPluginFactory`, and a `.clap`
candidate becomes a CLAP plugin iff its exports contain `clap_entry`;
otherwise the candidate is recorded as skipped.  Entry points of the other
formats are ignored within a bucket. -/
theorem format_classification_per_bucket (parse : FsPath → Option Pe32Info)
    (p : FsPath) (sub : Option FsPath) (info : Pe32Info) (fs : List FsPath)
    (h : parse p = some info) :
    ((∃ v, process_dll parse (p, sub) = some (Sum.inl v))
        ↔ ∃ s ∈ info.exports, s ∈ VST2_ENTRY_POINTS)
    ∧ ((∃ m, process_vst3 fs parse (p, sub) = some (Sum.inl m))
        ↔ "GetPluginFactory" ∈ info.exports)
    ∧ ((∃ c, process_clap parse (p, sub) = some (Sum.inl c))
        ↔ "clap_entry" ∈ info.exports)
    ∧ (process_dll parse (p, sub) = some (Sum.inr p)
        ↔ ¬∃ s ∈ info.exports, s ∈ VST2_ENTRY_POINTS)
    ∧ (process_vst3 fs parse (p, sub) = some (Sum.inr p)
        ↔ "GetPluginFactory" ∉ info.exports)
    ∧ (process_clap parse (p, sub) = some (Sum.inr p)
        ↔ "clap_entry" ∉ info.exports) := by
  refine ⟨?_, ?_, ?_, ?_, ?_, ?_⟩
  · unfold process_dll
    rw [show ((p, sub).1) = p from rfl, h]
    by_cases hx : ∃ s ∈ info.exports, s ∈ VST2_ENTRY_POINTS
    · simp [hx]
    · simp [hx]
  · unfold process_vst3
    rw [show ((p, sub).1) = p from rfl, h]
    by_cases hx : "GetPluginFactory" ∈ info.exports
    · simp [VST3_ENTRY_POINTS, hx]
    · simp [VST3_ENTRY_POINTS, hx]
  · unfold process_clap
    rw [show ((p, sub).1) = p from rfl, h]
    by_cases hx : "clap_entry" ∈ info.exports
    · simp [CLAP_ENTRY_POINTS, hx]
    · simp [CLAP_ENTRY_POINTS, hx]
  · unfold process_dll
    rw [show ((p, sub).1) = p from rfl, h]
    by_cases hx : ∃ s ∈ info.exports, s ∈ VST2_ENTRY_POINTS
    · simp [hx]
    · simp [hx]
  · unfold process_vst3
    rw [show ((p, sub).1) = p from rfl, h]
    by_cases hx : "GetPluginFactory" ∈ info.exports
    · simp [VST3_ENTRY_POINTS, hx]
    · simp [VST3_ENTRY_POINTS, hx]
  · unfold process_clap
    rw [show ((p, sub).1) = p from rfl, h]
    by_cases hx : "clap_entry" ∈ info.exports
    · simp [CLAP_ENTRY_POINTS, hx]
    · simp [CLAP_ENTRY_POINTS, hx]

/-- Closed instance of `format_classification_per_bucket` for a candidate
exporting only `GetPluginFactory`. -/
theorem format_classification_per_bucket_witness :
    ((∃ v, process_dll (fun _ => some ⟨["GetPluginFactory"], true⟩)
          (["Plugin.vst3"], none) = some (Sum.inl v))
        ↔ ∃ s ∈ (Pe32Info.mk ["GetPluginFactory"] true).exports, s ∈ VST2_ENTRY_POINTS)
    ∧ ((∃ m, process_vst3 [] (fun _ => some ⟨["GetPluginFactory"], true⟩)
          (["Plugin.vst3"], none) = some (Sum.inl m))
        ↔ "GetPluginFactory" ∈ (Pe32Info.mk ["GetPluginFactory"] true).exports)
    ∧ ((∃ c, process_clap (fun _ => some ⟨["GetPluginFactory"], true⟩)
          (["Plugin.vst3"], none) = some (Sum.inl c))
        ↔ "clap_entry" ∈ (Pe32Info.mk ["GetPluginFactory"] true).exports)
    ∧ (process_dll (fun _ => some ⟨["GetPluginFactory"], true⟩)
          (["Plugin.vst3"], none) = some (Sum.inr ["Plugin.vst3"])
        ↔ ¬∃ s ∈ (Pe32Info.mk ["GetPluginFactory"] true).exports, s ∈ VST2_ENTRY_POINTS)
    ∧ (process_vst3 [] (fun _ => some ⟨["GetPluginFactory"], true⟩)
          (["Plugin.vst3"], none) = some (Sum.inr ["Plugin.vst3"])
        ↔ "GetPluginFactory" ∉ (Pe32Info.mk ["GetPluginFactory"] true).exports)
    ∧ (process_clap (fun _ => some ⟨["GetPluginFactory"], true⟩)
          (["Plugin.vst3"], none) = some (Sum.inr ["Plugin.vst3"])
        ↔ "clap_entry" ∉ (Pe32Info.mk ["GetPluginFactory"] true).exports) :=
  format_classification_per_bucket (fun _ => some ⟨["GetPluginFactory"], true⟩)
    ["Plugin.vst3"] none ⟨["GetPluginFactory"], true⟩ [] rfl

/-- A `.dll` candidate only lands in the skipped bucket after a successful
parse; its recorded path is the candidate's own path. -/
theorem process_dll_inr_parsed (parse : FsPath → Option Pe32Info)
    (cand : FsPath × Option FsPath) (q : FsPath)
    (h : process_dll parse cand = some (Sum.inr q)) :
    q = cand.1 ∧ ∃ i, parse cand.1 = some i := by
  unfold process_dll at h
  cases hp : parse cand.1 with
  | none => rw [hp] at h; cases h
  | some info =>
    rw [hp] at h
    by_cases hx : ∃ x ∈ info.exports, x ∈ VST2_ENTRY_POINTS
    · simp [hx] at h
    · simp [hx] at h
      exact ⟨h.symm, info, rfl⟩

/-- A `.vst3` candidate only lands in the skipped bucket after a successful
parse; its recorded path is the candidate's own path. -/
theorem process_vst3_inr_parsed (fs : List FsPath) (parse : FsPath → Option Pe32Info)
    (cand : FsPath × Option FsPath) (q : FsPath)
    (h : process_vst3 fs parse cand = some (Sum.inr q)) :
    q = cand.1 ∧ ∃ i, parse cand.1 = some i := by
  unfold process_vst3 at h
  cases hp : parse cand.1 with
  | none => rw [hp] at h; cases h
  | some info =>
    rw [hp] at h
    by_cases hx : ∃ x ∈ info.exports, x ∈ VST3_ENTRY_POINTS
    · simp [hx] at h
    · simp [hx] at h
      exact ⟨h.symm, info, rfl⟩

/-- A `.clap` candidate only lands in the skipped bucket after a successful
parse; its recorded path is the candidate's own path. -/
theorem process_clap_inr_parsed (parse : FsPath → Option Pe32Info)
    (cand : FsPath × Option FsPath) (q : FsPath)
    (h : process_clap parse cand = some (Sum.inr q)) :
    q = cand.1 ∧ ∃ i, parse cand.1 = some i := by
  unfold process_clap at h
  cases hp : parse cand.1 with
  | none => rw [hp] at h; cases h
  | some info =>
    rw [hp] at h
    by_cases hx : ∃ x ∈ info.exports, x ∈ CLAP_ENTRY_POINTS
    · simp [hx] at h
    · simp [hx] at h
      exact ⟨h.symm, info, rfl⟩

/-- Every path in `skipped_files` comes from a candidate whose binary was
successfully parsed. -/
theorem mem_skipped_parsed (fs : List FsPath) (parse : FsPath → Option Pe32Info)
    (idx : SearchIndex) (q : FsPath)
    (hq : q ∈ (search fs parse idx).skipped_files) :
    ∃ i, parse q = some i := by
  unfold search at hq
  simp only [List.mem_append, List.mem_filterMap] at hq
  rcases hq with (⟨r, ⟨cand, hcand, hr⟩, hrq⟩ | ⟨r, ⟨cand, hcand, hr⟩, hrq⟩) |
    ⟨r, ⟨cand, hcand, hr⟩, hrq⟩
  · cases r with
    | inl v => cases hrq
    | inr p =>
      rw [show p = q by cases hrq; rfl] at hr
      obtain ⟨hqc, i, hi⟩ := process_dll_inr_parsed parse cand q hr
      exact ⟨i, by rw [hqc]; exact hi⟩
  · cases r with
    | inl v => cases hrq
    | inr p =>
      rw [show p = q by cases hrq; rfl] at hr
      obtain ⟨hqc, i, hi⟩ := process_vst3_inr_parsed fs parse cand q hr
      exact ⟨i, by rw [hqc]; exact hi⟩
  · cases r with
    | inl v => cases hrq
    | inr p =>
      rw [show p = q by cases hrq; rfl] at hr
      obtain ⟨hqc, i, hi⟩ := process_clap_inr_parsed parse cand q hr
      exact ⟨i, by rw [hqc]; exact hi⟩

/-- Claim C8 (counterexample): a candidate that cannot be parsed is not
surfaced in `skipped_files` — it is only warned about and dropped from the
results. -/
theorem parse_failure_counterexample :
    (search [] (fun _ => none) ⟨[(["Plugin.dll"], none)], [], [], []⟩).skipped_files = []
    ∧ search_warned (fun _ => none) ⟨[(["Plugin.dll"], none)], [], [], []⟩
        = [["Plugin.dll"]] :=
  ⟨rfl, rfl⟩

/-- Claim C8 (amended): when both parsing strategies fail for a candidate —
at any position in any of the three extension buckets — the failure is
recovered locally: a warning naming the file is emitted, the candidate is
dropped (the results equal those of the scan without it, so the remaining
candidates are still processed), and the file does not appear in
`skipped_files`. -/
theorem parse_failure_drops_file (fs : List FsPath) (parse : FsPath → Option Pe32Info)
    (p : FsPath) (sub : Option FsPath)
    (d1 d2 v1 v2 c1 c2 : List (FsPath × Option FsPath))
    (so : List NativeFile) (h : parse p = none) :
    (search fs parse ⟨d1 ++ (p, sub) :: d2, v1 ++ v2, c1 ++ c2, so⟩
        = search fs parse ⟨d1 ++ d2, v1 ++ v2, c1 ++ c2, so⟩
      ∧ p ∈ search_warned parse ⟨d1 ++ (p, sub) :: d2, v1 ++ v2, c1 ++ c2, so⟩
      ∧ p ∉ (search fs parse ⟨d1 ++ (p, sub) :: d2, v1 ++ v2, c1 ++ c2, so⟩).skipped_files)
    ∧ (search fs parse ⟨d1 ++ d2, v1 ++ (p, sub) :: v2, c1 ++ c2, so⟩
        = search fs parse ⟨d1 ++ d2, v1 ++ v2, c1 ++ c2, so⟩
      ∧ p ∈ search_warned parse ⟨d1 ++ d2, v1 ++ (p, sub) :: v2, c1 ++ c2, so⟩
      ∧ p ∉ (search fs parse ⟨d1 ++ d2, v1 ++ (p, sub) :: v2, c1 ++ c2, so⟩).skipped_files)
    ∧ (search fs parse ⟨d1 ++ d2, v1 ++ v2, c1 ++ (p, sub) :: c2, so⟩
        = search fs parse ⟨d1 ++ d2, v1 ++ v2, c1 ++ c2, so⟩
      ∧ p ∈ search_warned parse ⟨d1 ++ d2, v1 ++ v2, c1 ++ (p, sub) :: c2, so⟩
      ∧ p ∉ (search fs parse ⟨d1 ++ d2, v1 ++ v2, c1 ++ (p, sub) :: c2, so⟩).skipped_files) := by
  have hd : process_dll parse (p, sub) = none := by
    unfold process_dll
    rw [show ((p, sub).1) = p from rfl, h]
  have hv : process_vst3 fs parse (p, sub) = none := by
    unfold process_vst3
    rw [show ((p, sub).1) = p from rfl, h]
  have hc : process_clap parse (p, sub) = none := by
    unfold process_clap
    rw [show ((p, sub).1) = p from rfl, h]
  refine ⟨⟨?_, ?_, ?_⟩, ⟨?_, ?_, ?_⟩, ⟨?_, ?_, ?_⟩⟩
  · unfold search
    simp [List.filterMap_append, hd]
  · unfold search_warned
    simp [List.filterMap_append, h]
  · intro hmem
    obtain ⟨i, hi⟩ :=
      mem_skipped_parsed fs parse ⟨d1 ++ (p, sub) :: d2, v1 ++ v2, c1 ++ c2, so⟩ p hmem
    rw [h] at hi
    cases hi
  · unfold search
    simp [List.filterMap_append, hv]
  · unfold search_warned
    simp [List.filterMap_append, h]
  · intro hmem
    obtain ⟨i, hi⟩ :=
      mem_skipped_parsed fs parse ⟨d1 ++ d2, v1 ++ (p, sub) :: v2, c1 ++ c2, so⟩ p hmem
    rw [h] at hi
    cases hi
  · unfold search
    simp [List.filterMap_append, hc]
  · unfold search_warned
    simp [List.filterMap_append, h]
  · intro hmem
    obtain ⟨i, hi⟩ :=
      mem_skipped_parsed fs parse ⟨d1 ++ d2, v1 ++ v2, c1 ++ (p, sub) :: c2, so⟩ p hmem
    rw [h] at hi
    cases hi

/-- Closed instance of `parse_failure_drops_file` with the failing candidate
in each of the three buckets. -/
theorem parse_failure_drops_file_witness :
    (search [] (fun _ => none) ⟨[(["Plugin.dll"], none)], [], [], []⟩
        = search [] (fun _ => none) ⟨[], [], [], []⟩
      ∧ ["Plugin.dll"] ∈ search_warned (fun _ => none)
          ⟨[(["Plugin.dll"], none)], [], [], []⟩
      ∧ ["Plugin.dll"] ∉ (search [] (fun _ => none)
          ⟨[(["Plugin.dll"], none)], [], [], []⟩).skipped_files)
    ∧ (search [] (fun _ => none) ⟨[], [(["Plugin.dll"], none)], [], []⟩
        = search [] (fun _ => none) ⟨[], [], [], []⟩
      ∧ ["Plugin.dll"] ∈ search_warned (fun _ => none)
          ⟨[], [(["Plugin.dll"], none)], [], []⟩
      ∧ ["Plugin.dll"] ∉ (search [] (fun _ => none)
          ⟨[], [(["Plugin.dll"], none)], [], []⟩).skipped_files)
    ∧ (search [] (fun _ => none) ⟨[], [], [(["Plugin.dll"], none)], []⟩
        = search [] (fun _ => none) ⟨[], [], [], []⟩
      ∧ ["Plugin.dll"] ∈ search_warned (fun _ => none)
          ⟨[], [], [(["Plugin.dll"], none)], []⟩
      ∧ ["Plugin.dll"] ∉ (search [] (fun _ => none)
          ⟨[], [], [(["Plugin.dll"], none)], []⟩).skipped_files) :=
  parse_failure_drops_file [] (fun _ => none) ["Plugin.dll"] none [] [] [] [] [] [] []
    rfl
